import Mathlib

/-!
Verification of the image-deduplication core and the frontend image helpers
of the inventory-po-app repository.

The repository ships the frontend sources (api.js, ProductDetail.jsx, the
Import page) and documentation; the backend dedup engine
(image_similarity.py and the FastAPI upload/delete handlers) is not in the
tree, so the engine is modelled from the specification while the frontend
helpers are embedded directly from the JavaScript sources.
-/

set_option maxRecDepth 10000

namespace InvPO

/-! ## Similarity scorer -/

/-- A perceptual hash: a fixed-width binary fingerprint (the spec fixes the
width at 64 bits for real hashes, but the model keeps the width implicit in
the list length). -/
abbrev PHash := List Bool

/-- A single local keypoint descriptor, modelled as a vector of naturals. -/
abbrev Descriptor := List Nat

/-- Modelled from the spec: the Descriptor Extractor's output for one image,
a perceptual hash plus a bounded set of local feature descriptors
(`extract(image_bytes) -> (PerceptualFingerprint, FeatureDescriptorSet)`).
The concrete extractor (Pillow/imagehash/OpenCV code) is not in src/. -/
structure Fingerprint where
  phash : PHash
  features : List Descriptor
deriving Repr, DecidableEq

/-- Modelled from the spec: the three externally configurable thresholds of
the Similarity Scorer (IMAGE_SIMILARITY_THRESHOLD, FEATURE_MATCH_RATIO,
FEATURE_MIN_MATCHES). -/
structure SimilarityConfig where
  hash_threshold : ℚ
  ratio_threshold : ℚ
  min_matches : Nat
deriving Repr, DecidableEq

/-- The documented default thresholds: hash similarity 0.95, Lowe ratio
0.55, minimum good matches 225. -/
def defaultConfig : SimilarityConfig :=
  { hash_threshold := mkRat 95 100
    ratio_threshold := mkRat 55 100
    min_matches := 225 }

/-- Number of differing bit positions of two hashes (over the common
width; stored hashes all share one fixed width). -/
def hammingDistance (a b : PHash) : Nat :=
  (List.zipWith (fun x y => x != y) a b).count true

/-- Modelled from the spec: normalized perceptual-hash similarity,
1 − bit_differences / bit_length, a rational in [0, 1]. -/
def hashSimilarity (a b : PHash) : ℚ :=
  1 - (hammingDistance a b : ℚ) / (a.length : ℚ)

/-- L1 distance of two descriptors: the model's stand-in for the
descriptor-space metric of the matcher. -/
def descDistance (a b : Descriptor) : Nat :=
  (List.zipWith (fun x y => max x y - min x y) a b).sum

/-- One step of the two-smallest scan: fold the next distance into the
current (best, second-best) pair. -/
def twoSmallestStep (acc : Nat × Nat) (x : Nat) : Nat × Nat :=
  if x < acc.1 then (x, acc.1)
  else if x < acc.2 then (acc.1, x)
  else acc

/-- The two smallest elements of a list of distances (best and second-best
neighbor), if the list has at least two elements. -/
def twoSmallest (l : List Nat) : Option (Nat × Nat) :=
  match l with
  | a :: b :: rest => some (rest.foldl twoSmallestStep (min a b, max a b))
  | _ => none

/-- Modelled from the spec: Lowe's ratio test for one query descriptor
against a candidate descriptor set. The match is accepted only when the
best neighbor distance is smaller than ratio_threshold times the
second-best neighbor distance; the comparison is carried out by integer
cross-multiplication against the threshold's reduced fraction. -/
def ratioAccept (cfg : SimilarityConfig) (d : Descriptor)
    (cands : List Descriptor) : Bool :=
  match twoSmallest (cands.map (descDistance d)) with
  | some (b1, b2) =>
    decide ((b1 : ℤ) * (cfg.ratio_threshold.den : ℤ) <
      cfg.ratio_threshold.num * (b2 : ℤ))
  | none => false

/-- Modelled from the spec: the count of ratio-test-accepted ("good")
matches of the first descriptor set's keypoints into the second set. -/
def goodMatches (cfg : SimilarityConfig) (a b : List Descriptor) : Nat :=
  (a.filter (fun d => ratioAccept cfg d b)).length

/-- Modelled from the spec: the hash rule fires when the normalized hash
similarity reaches hash_threshold. With bit length L and d differing bits,
threshold ≤ 1 − d/L is carried out as threshold.num * L ≤ (L − d) *
threshold.den by integer cross-multiplication. -/
def hashRule (cfg : SimilarityConfig) (a b : Fingerprint) : Bool :=
  decide (cfg.hash_threshold.num * (a.phash.length : ℤ) ≤
    ((a.phash.length - hammingDistance a.phash b.phash : ℕ) : ℤ) *
      (cfg.hash_threshold.den : ℤ))

/-- Modelled from the spec: the feature rule fires when the good-match
count reaches min_matches. -/
def featureRule (cfg : SimilarityConfig) (a b : Fingerprint) : Bool :=
  decide (cfg.min_matches ≤ goodMatches cfg a.features b.features)

/-- Modelled from the spec: the Similarity Scorer's verdict, the OR of the
hash rule and the feature rule. -/
def is_same_photo (cfg : SimilarityConfig) (a b : Fingerprint) : Bool :=
  hashRule cfg a b || featureRule cfg a b

/-! ## Dedup resolver -/

/-- An AssetReference: the durable pointer stored on a product record,
either a root-relative path or a public URL. -/
abbrev Ref := String

/-- The error taxonomy of the core that the resolver can meet while
scanning: undecodable bytes, or an asset missing from storage. -/
inductive ImgErr where
  | UnsupportedImageFormat
  | AssetNotFound
deriving Repr, DecidableEq

/-- The resolver's verdict outcome: reuse an existing asset or store the
upload as a new one. -/
inductive Outcome where
  | REUSE
  | STORE_NEW
deriving Repr, DecidableEq

/-- The Dedup Resolver's result: outcome plus the matched reference (null
for STORE_NEW). -/
structure DedupVerdict where
  outcome : Outcome
  matched_reference : Option Ref
deriving Repr, DecidableEq

/-- A Descriptor Cache lookup: resolves a stored reference to its
fingerprint, or fails when the stored asset cannot be decoded or is
missing. Modelled as an abstract function since the cache is a pure
memoization layer over the extractor. -/
abbrev Lookup := Ref → Except ImgErr Fingerprint

/-- Modelled from the spec: the candidate scan of the Dedup Resolver
(section 4.4). It walks the candidate list in order, skips candidates whose
cache lookup fails, and stops at the first candidate whose fingerprint the
Similarity Scorer accepts. The second component counts the similarity
comparisons performed. -/
def resolveScan (cfg : SimilarityConfig) (lookup : Lookup) (fp : Fingerprint) :
    List Ref → DedupVerdict × Nat
  | [] => (⟨Outcome.STORE_NEW, none⟩, 0)
  | r :: rest =>
    match lookup r with
    | Except.error _ => resolveScan cfg lookup fp rest
    | Except.ok cand =>
      if is_same_photo cfg fp cand then (⟨Outcome.REUSE, some r⟩, 1)
      else
        let t := resolveScan cfg lookup fp rest
        (t.1, t.2 + 1)

/-- Modelled from the spec: resolve with an explicit comparison counter.
If force_new is set the resolver returns STORE_NEW immediately with no
comparisons; otherwise it scans the candidates. -/
def resolveCount (cfg : SimilarityConfig) (lookup : Lookup) (fp : Fingerprint)
    (cands : List Ref) (force_new : Bool) : DedupVerdict × Nat :=
  if force_new then (⟨Outcome.STORE_NEW, none⟩, 0)
  else resolveScan cfg lookup fp cands

/-- Modelled from the spec: the Dedup Resolver's contract
`resolve(new_fp, candidate_references, force_new) -> DedupVerdict`. -/
def resolve (cfg : SimilarityConfig) (lookup : Lookup) (fp : Fingerprint)
    (cands : List Ref) (force_new : Bool) : DedupVerdict :=
  (resolveCount cfg lookup fp cands force_new).1

/-- Whether a candidate reference decodes and matches the upload; the
predicate the first-match scan is characterized by. -/
def candMatches (cfg : SimilarityConfig) (lookup : Lookup) (fp : Fingerprint)
    (r : Ref) : Bool :=
  match lookup r with
  | Except.ok cand => is_same_photo cfg fp cand
  | Except.error _ => false

/-! ## Storage backend and asset lifecycle -/

/-- Uploaded raw content, abstracted to an identity: the model never
inspects bytes except through the extractor. -/
abbrev Bytes := Nat

/-- A product row as the lifecycle logic sees it: a row id plus the
optional image reference column. -/
structure Product where
  pid : Nat
  image_url : Option Ref
deriving Repr, DecidableEq

/-- The persistent state the lifecycle manager mutates: the product rows
and the set of asset references present in the Storage Backend. -/
structure SysState where
  products : List Product
  storage : List Ref
deriving Repr, DecidableEq

/-- Whether any row of the given product list references the asset. -/
def referencedBy (ps : List Product) (r : Ref) : Bool :=
  ps.any (fun p => p.image_url == some r)

/-- The distinct image references currently attached to any product: the
live candidate corpus the resolver scans. -/
def liveRefs (ps : List Product) : List Ref :=
  (ps.filterMap (fun p => p.image_url)).dedup

/-- The fresh storage key generated for a STORE_NEW verdict (the backend
derives a unique filename; the model only needs some deterministic fresh
name). -/
def freshRef (st : SysState) : Ref :=
  String.append "asset-" (toString st.storage.length)

/-- The outcome of routing one upload through the dedup pipeline: the
reference to persist (or the propagated error), the storage state after
the call, and the number of Storage Backend put invocations. -/
structure AttachOutcome where
  result : Except ImgErr Ref
  state : SysState
  puts : Nat
deriving Repr

/-- Modelled from the spec: attach-on-create/replace (section 4.6). The
new bytes are extracted first; on extraction failure the error propagates
before any storage write. Otherwise the resolver decides REUSE (no write)
or STORE_NEW (one Storage Backend put of a fresh key). -/
def attachImage (extract : Bytes → Except ImgErr Fingerprint)
    (cfg : SimilarityConfig) (lookup : Lookup) (st : SysState)
    (bytes : Bytes) (force_new : Bool) : AttachOutcome :=
  match extract bytes with
  | Except.error e => ⟨Except.error e, st, 0⟩
  | Except.ok fp =>
    match resolve cfg lookup fp (liveRefs st.products) force_new with
    | ⟨Outcome.REUSE, some r⟩ => ⟨Except.ok r, st, 0⟩
    | _ =>
      let r := freshRef st
      ⟨Except.ok r, ⟨st.products, st.storage ++ [r]⟩, 1⟩

/-- Modelled from the spec: the shared-file cleanup applied after a row
stops referencing a previous asset (delete or replace): the asset is
removed from storage only when no remaining product row references it. -/
def cleanupRef (ps : List Product) (storage : List Ref) (r : Ref) :
    List Ref :=
  if referencedBy ps r then storage else storage.erase r

/-- Modelled from the spec: DELETE of a product. The row is removed; if it
held an image reference that no other remaining row shares, the underlying
asset is deleted from the Storage Backend. -/
def deleteProduct (st : SysState) (pid : Nat) : SysState :=
  match st.products.find? (fun p => p.pid == pid) with
  | none => st
  | some p =>
    let rest := st.products.filter (fun q => q.pid != pid)
    match p.image_url with
    | none => ⟨rest, st.storage⟩
    | some r => ⟨rest, cleanupRef rest st.storage r⟩

/-- Modelled from the spec: create a product, routing the optional upload
through the dedup pipeline; on extraction failure nothing is stored and no
row is inserted. -/
def createProduct (extract : Bytes → Except ImgErr Fingerprint)
    (cfg : SimilarityConfig) (lookup : Lookup) (st : SysState) (pid : Nat)
    (bytes : Option Bytes) (force_new : Bool) : SysState :=
  match bytes with
  | none => ⟨st.products ++ [⟨pid, none⟩], st.storage⟩
  | some b =>
    match attachImage extract cfg lookup st b force_new with
    | ⟨Except.error _, _, _⟩ => st
    | ⟨Except.ok r, st1, _⟩ => ⟨st1.products ++ [⟨pid, some r⟩], st1.storage⟩

/-- Modelled from the spec: replace a product's image. The new upload is
attached first; the row is repointed at the new reference; then the
previous reference, if different, goes through the shared-file cleanup. -/
def updateProductImage (extract : Bytes → Except ImgErr Fingerprint)
    (cfg : SimilarityConfig) (lookup : Lookup) (st : SysState) (pid : Nat)
    (bytes : Bytes) (force_new : Bool) : SysState :=
  match st.products.find? (fun p => p.pid == pid) with
  | none => st
  | some p =>
    match attachImage extract cfg lookup st bytes force_new with
    | ⟨Except.error _, _, _⟩ => st
    | ⟨Except.ok r, st1, _⟩ =>
      let ps := st1.products.map
        (fun q => if q.pid == pid then ⟨q.pid, some r⟩ else q)
      match p.image_url with
      | none => ⟨ps, st1.storage⟩
      | some r0 =>
        if r0 == r then ⟨ps, st1.storage⟩
        else ⟨ps, cleanupRef ps st1.storage r0⟩

/-- The product mutations that touch asset lifecycle. -/
inductive Op where
  | create (pid : Nat) (bytes : Option Bytes) (force_new : Bool)
  | updateImage (pid : Nat) (bytes : Bytes) (force_new : Bool)
  | delete (pid : Nat)

/-- One step of the lifecycle state machine. -/
def applyOp (extract : Bytes → Except ImgErr Fingerprint)
    (cfg : SimilarityConfig) (lookup : Lookup) (st : SysState) :
    Op → SysState
  | Op.create pid bytes force_new =>
    createProduct extract cfg lookup st pid bytes force_new
  | Op.updateImage pid bytes force_new =>
    updateProductImage extract cfg lookup st pid bytes force_new
  | Op.delete pid => deleteProduct st pid

/-! ## Frontend helpers, embedded from the JavaScript sources -/

/-- The JavaScript startsWith check, embedded over the character list of
the string (api.js uses imageUrl.startsWith on ASCII scheme names). -/
def jsStartsWith (s pat : String) : Bool :=
  pat.data.isPrefixOf s.data

/-- The JavaScript endsWith check used by getApiOrigin in api.js. -/
def jsEndsWith (s pat : String) : Bool :=
  pat.data.isSuffixOf s.data

/-- The slice(0, -n) call of getApiOrigin: drop the last n characters. -/
def jsDropRight (s : String) (n : Nat) : String :=
  ⟨s.data.take (s.data.length - n)⟩

/-- Embedded from api.js getApiOrigin: strip a trailing "/api" from the
configured API base URL, otherwise return the base unchanged. -/
def getApiOrigin (base : String) : String :=
  if jsEndsWith base "/api" then jsDropRight base 4 else base

/-- Embedded from api.js resolveImageUrl: placeholder for a null or empty
URL, absolute http(s) URLs unchanged, otherwise the API origin prepended
to the relative path. -/
def resolveImageUrl (base : String) (imageUrl : Option String) : String :=
  match imageUrl with
  | none => "/placeholder-image.png"
  | some u =>
    if u = "" then "/placeholder-image.png"
    else if jsStartsWith u "http://" || jsStartsWith u "https://" then u
    else String.append (getApiOrigin base) u

/-- A browser File as the client-side validation sees it: declared MIME
type and byte size. -/
structure JSFile where
  type : String
  size : Nat
deriving Repr, DecidableEq

/-- Embedded from ProductDetail.jsx / Import.jsx: the accepted MIME
types. -/
def validTypes : List String :=
  ["image/jpeg", "image/jpg", "image/png", "image/gif", "image/webp"]

/-- The client-side acceptance condition: a whitelisted MIME type and at
most 5 MB. -/
def validImageFile (f : JSFile) : Bool :=
  validTypes.contains f.type && decide (f.size ≤ 5 * 1024 * 1024)

/-- The image-related component state of the Product Detail form:
imageFile, imagePreview (modelled by the file the preview was read from)
and the forceNewImage toggle. -/
structure DetailFormState where
  imageFile : Option JSFile
  imagePreview : Option JSFile
  forceNewImage : Bool
deriving Repr, DecidableEq

/-- Embedded from ProductDetail.jsx useState initializers: no file, no
preview, forceNewImage starts true. -/
def pdInitState : DetailFormState := ⟨none, none, true⟩

/-- Embedded from ProductDetail.jsx processImageFile: a null file clears
file, preview and resets the toggle to true; a file with an invalid MIME
type or over 5 MB is rejected with the state untouched; an accepted file
replaces the selection, rebuilds the preview and resets the toggle to
true. -/
def pdProcessImageFile (st : DetailFormState) (file : Option JSFile) :
    DetailFormState :=
  match file with
  | none => ⟨none, none, true⟩
  | some f =>
    if !(validTypes.contains f.type) then st
    else if 5 * 1024 * 1024 < f.size then st
    else ⟨some f, some f, true⟩

/-- Embedded from ProductDetail.jsx handleSave: force_new_image is put on
the payload only when an image file is selected, carrying the current
toggle value. -/
def pdSubmitForceFlag (st : DetailFormState) : Option Bool :=
  match st.imageFile with
  | some _ => some st.forceNewImage
  | none => none

/-- The image-related component state of the Import page's manual-input
form (it keeps no preview). -/
structure ImportFormState where
  imageFile : Option JSFile
  manualForceNewImage : Bool
deriving Repr, DecidableEq

/-- Embedded from the Import page useState initializers. -/
def importInitState : ImportFormState := ⟨none, true⟩

/-- Embedded from the Import page processImageFile: same validation as
the Product Detail form, no preview. -/
def importProcessImageFile (st : ImportFormState) (file : Option JSFile) :
    ImportFormState :=
  match file with
  | none => ⟨none, true⟩
  | some f =>
    if !(validTypes.contains f.type) then st
    else if 5 * 1024 * 1024 < f.size then st
    else ⟨some f, true⟩

/-- Embedded from the Import page handleManualSubmit: force_new_image is
put on the payload only when an image file is selected. -/
def importSubmitForceFlag (st : ImportFormState) : Option Bool :=
  match st.imageFile with
  | some _ => some st.manualForceNewImage
  | none => none

/-! ## Helper lemmas -/

/-- The bit-difference count never exceeds the first hash's width. -/
lemma hammingDistance_le (a b : PHash) : hammingDistance a b ≤ a.length := by
  unfold hammingDistance
  calc (List.zipWith (fun x y => x != y) a b).count true
      ≤ (List.zipWith (fun x y => x != y) a b).length := List.count_le_length _ _
    _ ≤ a.length := by rw [List.length_zipWith]; exact min_le_left _ _

/-- Bit-difference counting does not depend on the argument order. -/
lemma hammingDistance_comm (a b : PHash) :
    hammingDistance a b = hammingDistance b a := by
  unfold hammingDistance
  rw [List.zipWith_comm_of_comm]
  intro x y
  cases x <;> cases y <;> rfl

/-- The integer cross-multiplied hash rule agrees with the rational
threshold test of the spec whenever the hash has positive width. -/
lemma hashRule_iff (cfg : SimilarityConfig) (a b : Fingerprint)
    (hL : 0 < a.phash.length) :
    hashRule cfg a b = true ↔
      cfg.hash_threshold ≤ hashSimilarity a.phash b.phash := by
  have hd : hammingDistance a.phash b.phash ≤ a.phash.length :=
    hammingDistance_le _ _
  have hLQ : (0 : ℚ) < (a.phash.length : ℚ) := by exact_mod_cast hL
  have hden : (0 : ℚ) < (cfg.hash_threshold.den : ℚ) := by
    exact_mod_cast cfg.hash_threshold.den_pos
  unfold hashRule hashSimilarity
  rw [decide_eq_true_eq]
  have hsim :
      1 - (hammingDistance a.phash b.phash : ℚ) / (a.phash.length : ℚ) =
        ((a.phash.length - hammingDistance a.phash b.phash : ℕ) : ℚ) /
          (a.phash.length : ℚ) := by
    rw [Nat.cast_sub hd, sub_div, div_self (ne_of_gt hLQ)]
  conv_rhs => rw [hsim, le_div_iff₀ hLQ]
  conv_rhs => rw [← Rat.num_div_den cfg.hash_threshold,
    div_mul_eq_mul_div, div_le_iff₀ hden]
  constructor <;> intro h <;> exact_mod_cast h

/-- The integer cross-multiplied ratio test agrees with the rational
"best < ratio_threshold * second-best" test of the spec. -/
lemma ratioAccept_eq (cfg : SimilarityConfig) (d : Descriptor)
    (cands : List Descriptor) :
    ratioAccept cfg d cands =
      match twoSmallest (cands.map (descDistance d)) with
      | some p => decide ((p.1 : ℚ) < cfg.ratio_threshold * (p.2 : ℚ))
      | none => false := by
  have hden : (0 : ℚ) < (cfg.ratio_threshold.den : ℚ) := by
    exact_mod_cast cfg.ratio_threshold.den_pos
  unfold ratioAccept
  cases h : twoSmallest (cands.map (descDistance d)) with
  | none => rfl
  | some p =>
    simp only [decide_eq_decide]
    conv_rhs => rw [← Rat.num_div_den cfg.ratio_threshold,
      div_mul_eq_mul_div, lt_div_iff₀ hden]
    constructor <;> intro h2 <;> exact_mod_cast h2

/-- The verdict of the candidate scan is the one of the first candidate
accepted by candMatches. -/
lemma resolveScan_fst (cfg : SimilarityConfig) (lookup : Lookup)
    (fp : Fingerprint) (cands : List Ref) :
    (resolveScan cfg lookup fp cands).1 =
      match cands.find? (candMatches cfg lookup fp) with
      | some r => ⟨Outcome.REUSE, some r⟩
      | none => ⟨Outcome.STORE_NEW, none⟩ := by
  induction cands with
  | nil => rfl
  | cons r rest ih =>
    rw [List.find?_cons]
    cases h : lookup r with
    | error e =>
      simp only [resolveScan, h, candMatches, ih]
    | ok cand =>
      by_cases hs : is_same_photo cfg fp cand
      · simp only [resolveScan, h, candMatches, hs, if_true]
      · simp only [resolveScan, h, candMatches, hs, if_false,
          Bool.false_eq_true, ih]

/-- A candidate whose descriptor lookup fails is transparently skipped by
the candidate scan, wherever it sits in the corpus. -/
lemma resolveScan_skips_error (cfg : SimilarityConfig) (lookup : Lookup)
    (fp : Fingerprint) (r : Ref) (e : ImgErr)
    (h : lookup r = Except.error e) (pre post : List Ref) :
    resolveScan cfg lookup fp (pre ++ r :: post) =
      resolveScan cfg lookup fp (pre ++ post) := by
  induction pre with
  | nil => simp only [List.nil_append, resolveScan, h]
  | cons x xs ih =>
    simp only [List.cons_append, resolveScan, List.append_eq, ih]

/-! ## Claim theorems: dedup resolver and similarity scorer -/

/-- C1: resolving with force_new set returns STORE_NEW with a null
matched_reference and performs zero similarity comparisons, for every
upload fingerprint and every candidate corpus (in particular one holding a
candidate identical to the upload). -/
theorem resolve_force_new_bypass :
    ∀ (cfg : SimilarityConfig) (lookup : Lookup) (fp : Fingerprint)
      (cands : List Ref),
      resolve cfg lookup fp cands true = ⟨Outcome.STORE_NEW, none⟩ ∧
      (resolveCount cfg lookup fp cands true).2 = 0 :=
  fun _ _ _ _ => ⟨rfl, rfl⟩

/-- C2: under the default configuration (hash threshold 0.95, Lowe ratio
0.55, min matches 225), is_same_photo holds exactly when the normalized
hash similarity reaches 0.95 OR the count of ratio-test-accepted matches
reaches 225; the two rules combine by OR, not AND. Stated for the fixed
positive hash width the extractor produces. -/
theorem is_same_photo_or_of_rules (a b : Fingerprint)
    (hL : 0 < a.phash.length) :
    is_same_photo defaultConfig a b = true ↔
      (mkRat 95 100 ≤ hashSimilarity a.phash b.phash ∨
        225 ≤ (a.features.filter (fun d =>
          match twoSmallest (b.features.map (descDistance d)) with
          | some p => decide ((p.1 : ℚ) < mkRat 55 100 * (p.2 : ℚ))
          | none => false)).length) := by
  have hfe : (fun d => ratioAccept defaultConfig d b.features) =
      (fun d =>
        match twoSmallest (b.features.map (descDistance d)) with
        | some p => decide ((p.1 : ℚ) < mkRat 55 100 * (p.2 : ℚ))
        | none => false) := by
    funext d
    exact ratioAccept_eq defaultConfig d b.features
  unfold is_same_photo featureRule goodMatches
  rw [Bool.or_eq_true, hashRule_iff defaultConfig a b hL, decide_eq_true_eq,
    hfe]
  exact Iff.rfl

/-- Witness for C2 at concrete fingerprints of width 4: the verdict
coincides with the disjunction of the two threshold tests. -/
theorem is_same_photo_or_of_rules_witness :
    is_same_photo defaultConfig ⟨[true, false, true, true], [[5]]⟩
        ⟨[true, false, true, false], [[5], [9]]⟩ = true ↔
      (mkRat 95 100 ≤ hashSimilarity [true, false, true, true]
          [true, false, true, false] ∨
        225 ≤ (([[5]] : List Descriptor).filter (fun d =>
          match twoSmallest ((([[5], [9]] : List Descriptor)).map
              (descDistance d)) with
          | some p => decide ((p.1 : ℚ) < mkRat 55 100 * (p.2 : ℚ))
          | none => false)).length) :=
  is_same_photo_or_of_rules ⟨[true, false, true, true], [[5]]⟩
    ⟨[true, false, true, false], [[5], [9]]⟩ (by decide)

/-- C4: with force_new unset the resolver scans the candidate list in its
given deterministic order and returns REUSE with the first matching
candidate, or STORE_NEW with a null matched_reference when no candidate
matches. -/
theorem resolve_first_match_policy (cfg : SimilarityConfig)
    (lookup : Lookup) (fp : Fingerprint) (cands : List Ref) :
    resolve cfg lookup fp cands false =
      match cands.find? (candMatches cfg lookup fp) with
      | some r => ⟨Outcome.REUSE, some r⟩
      | none => ⟨Outcome.STORE_NEW, none⟩ :=
  resolveScan_fst cfg lookup fp cands

/-- C5: a candidate whose Descriptor Cache lookup fails (for instance a
corrupt stored asset raising UnsupportedImageFormat) is skipped and the
scan continues over the remaining candidates; the resolution of the
upload is the same as if the bad candidate were absent, never fatal. -/
theorem resolve_skips_corrupt_candidate (cfg : SimilarityConfig)
    (lookup : Lookup) (fp : Fingerprint) (r : Ref) (e : ImgErr)
    (pre post : List Ref) (h : lookup r = Except.error e) :
    resolve cfg lookup fp (pre ++ r :: post) false =
      resolve cfg lookup fp (pre ++ post) false := by
  unfold resolve resolveCount
  rw [if_neg (by simp), if_neg (by simp),
    resolveScan_skips_error cfg lookup fp r e h pre post]

/-- A corpus lookup with one undecodable stored asset, used to instantiate
the corrupt-candidate skip. -/
def corruptLookup : Lookup := fun r =>
  if r = "corrupt.png" then Except.error ImgErr.UnsupportedImageFormat
  else Except.ok ⟨List.replicate 64 true, []⟩

/-- A sample upload fingerprint for the corrupt-candidate witness. -/
def sampleFp : Fingerprint := ⟨List.replicate 64 true, []⟩

/-- Witness for C5: with a concrete corpus whose middle candidate is
corrupt, resolution equals resolution over the two healthy candidates. -/
theorem resolve_skips_corrupt_candidate_witness :
    resolve defaultConfig corruptLookup sampleFp
        (["a.png"] ++ "corrupt.png" :: ["b.png"]) false =
      resolve defaultConfig corruptLookup sampleFp
        (["a.png"] ++ ["b.png"]) false :=
  resolve_skips_corrupt_candidate defaultConfig corruptLookup sampleFp
    "corrupt.png" ImgErr.UnsupportedImageFormat ["a.png"] ["b.png"] rfl

/-- The first fingerprint of the symmetry counterexample: a hash of 64 set
bits and 225 copies of one descriptor. -/
def cexFpA : Fingerprint :=
  ⟨List.replicate 64 true, List.replicate 225 [0]⟩

/-- The second fingerprint of the symmetry counterexample: the complement
hash and two well-separated descriptors. -/
def cexFpB : Fingerprint :=
  ⟨List.replicate 64 false, [[0], [1000]]⟩

/-- Counterexample for C7: scoring is not symmetric under the default
thresholds. Matching the 225 duplicate descriptors of A into B passes the
ratio test 225 times (is_same_photo true), while matching B into A finds
equal best and second-best distances, fails the ratio test everywhere, and
the hashes disagree (is_same_photo false). -/
theorem is_same_photo_not_symmetric :
    ¬ (is_same_photo defaultConfig cexFpA cexFpB =
        is_same_photo defaultConfig cexFpB cexFpA) := by
  decide

/-- C7 amended: the hash rule is order-independent for the fixed hash
width, and the verdict is symmetric whenever the two directed good-match
counts of the feature rule coincide; full symmetry fails in general
because the feature rule counts matches from the first argument's
descriptors into the second's. -/
theorem is_same_photo_symm_of_count_eq (cfg : SimilarityConfig)
    (a b : Fingerprint) (hlen : a.phash.length = b.phash.length)
    (hcnt : goodMatches cfg a.features b.features =
      goodMatches cfg b.features a.features) :
    is_same_photo cfg a b = is_same_photo cfg b a := by
  unfold is_same_photo hashRule featureRule
  rw [hammingDistance_comm, hlen, hcnt]

/-- Witness for the amended C7: two fingerprints with different hashes but
literally equal descriptor sets score the same in both orders. -/
theorem is_same_photo_symm_of_count_eq_witness :
    is_same_photo defaultConfig ⟨[true, false], [[1], [2]]⟩
        ⟨[false, false], [[1], [2]]⟩ =
      is_same_photo defaultConfig ⟨[false, false], [[1], [2]]⟩
        ⟨[true, false], [[1], [2]]⟩ :=
  is_same_photo_symm_of_count_eq defaultConfig
    ⟨[true, false], [[1], [2]]⟩ ⟨[false, false], [[1], [2]]⟩ rfl rfl

/-! ## Claim theorems: asset lifecycle -/

/-- C6: when the new upload's bytes fail extraction,
UnsupportedImageFormat propagates to the caller, the Storage Backend put
is never invoked, the storage state is unchanged, and the surrounding
create and replace operations leave the whole state untouched. -/
theorem upload_extraction_error_no_mutation
    (extract : Bytes → Except ImgErr Fingerprint) (cfg : SimilarityConfig)
    (lookup : Lookup) (st : SysState) (bytes : Bytes) (force_new : Bool)
    (pid : Nat)
    (h : extract bytes = Except.error ImgErr.UnsupportedImageFormat) :
    attachImage extract cfg lookup st bytes force_new =
      ⟨Except.error ImgErr.UnsupportedImageFormat, st, 0⟩ ∧
    createProduct extract cfg lookup st pid (some bytes) force_new = st ∧
    updateProductImage extract cfg lookup st pid bytes force_new = st := by
  have h1 : attachImage extract cfg lookup st bytes force_new =
      ⟨Except.error ImgErr.UnsupportedImageFormat, st, 0⟩ := by
    unfold attachImage
    rw [h]
  refine ⟨h1, ?_, ?_⟩
  · simp only [createProduct, h1]
  · cases hfind : st.products.find? (fun p => p.pid == pid) with
    | none => simp only [updateProductImage, hfind]
    | some p => simp only [updateProductImage, hfind, h1]

/-- An extractor that rejects every byte payload, for the
extraction-failure witness. -/
def failingExtract : Bytes → Except ImgErr Fingerprint :=
  fun _ => Except.error ImgErr.UnsupportedImageFormat

/-- A one-product, one-asset state for the lifecycle witnesses. -/
def sampleState : SysState := ⟨[⟨7, some "x.png"⟩], ["x.png"]⟩

/-- Witness for C6 at a concrete state: the failing upload leaves the
state alone, performs no put and surfaces the error. -/
theorem upload_extraction_error_no_mutation_witness :
    attachImage failingExtract defaultConfig corruptLookup sampleState 3
        false =
      ⟨Except.error ImgErr.UnsupportedImageFormat, sampleState, 0⟩ ∧
    createProduct failingExtract defaultConfig corruptLookup sampleState 9
        (some 3) false = sampleState ∧
    updateProductImage failingExtract defaultConfig corruptLookup
        sampleState 9 3 false = sampleState :=
  upload_extraction_error_no_mutation failingExtract defaultConfig
    corruptLookup sampleState 3 false 9 rfl

/-- Whatever the dedup pipeline decides, it never removes anything from
the Storage Backend: attach only reuses or appends. -/
lemma attachImage_storage_mono (extract : Bytes → Except ImgErr Fingerprint)
    (cfg : SimilarityConfig) (lookup : Lookup) (st : SysState)
    (bytes : Bytes) (force_new : Bool) :
    st.storage ⊆
      (attachImage extract cfg lookup st bytes force_new).state.storage := by
  unfold attachImage
  cases hx : extract bytes with
  | error e => exact fun x hxm => hxm
  | ok fp =>
    rcases hres : resolve cfg lookup fp (liveRefs st.products) force_new
      with ⟨outcome, matched⟩
    simp only [hres]
    cases outcome with
    | REUSE =>
      cases matched with
      | none => exact List.subset_append_left _ _
      | some r => exact fun x hxm => hxm
    | STORE_NEW => exact List.subset_append_left _ _

/-- A false referencedBy check really means no row references the
asset. -/
lemma referencedBy_eq_false (ps : List Product) (r : Ref)
    (h : referencedBy ps r = false) :
    ∀ p ∈ ps, p.image_url ≠ some r := by
  intro p hp
  unfold referencedBy at h
  rw [List.any_eq_false] at h
  have hb := h p hp
  simpa using hb

/-- C3: invariant I1. First conjunct: across every lifecycle operation
(create, replace, delete), an asset removed from the Storage Backend is
referenced by no product row of the resulting state. Second conjunct: when
exactly two products share the stored asset, deleting the first leaves the
asset in storage and deleting the second removes it. -/
theorem asset_deleted_only_when_unreferenced :
    (∀ (extract : Bytes → Except ImgErr Fingerprint)
      (cfg : SimilarityConfig) (lookup : Lookup) (st : SysState) (op : Op)
      (r : Ref), r ∈ st.storage →
      r ∉ (applyOp extract cfg lookup st op).storage →
      ∀ p ∈ (applyOp extract cfg lookup st op).products,
        p.image_url ≠ some r) ∧
    (∀ (p1 p2 : Nat) (r : Ref), p1 ≠ p2 →
      (deleteProduct ⟨[⟨p1, some r⟩, ⟨p2, some r⟩], [r]⟩ p1).storage =
        [r] ∧
      (deleteProduct (deleteProduct ⟨[⟨p1, some r⟩, ⟨p2, some r⟩], [r]⟩ p1)
        p2).storage = []) := by
  constructor
  · intro extract cfg lookup st op r hin hout p hp
    cases op with
    | create pid bytes force_new =>
      cases bytes with
      | none =>
        simp only [applyOp, createProduct] at hout
        exact absurd hin hout
      | some b =>
        rcases hA : attachImage extract cfg lookup st b force_new with
          ⟨res, st1, puts⟩
        have hmono := attachImage_storage_mono extract cfg lookup st b
          force_new
        cases res with
        | error e =>
          simp only [applyOp, createProduct, hA] at hout
          exact absurd hin hout
        | ok rnew =>
          simp only [applyOp, createProduct, hA] at hout
          simp only [hA] at hmono
          exact absurd (hmono hin) hout
    | updateImage pid b force_new =>
      cases hfind : st.products.find? (fun q => q.pid == pid) with
      | none =>
        simp only [applyOp, updateProductImage, hfind] at hout
        exact absurd hin hout
      | some q =>
        rcases hA : attachImage extract cfg lookup st b force_new with
          ⟨res, st1, puts⟩
        have hmono := attachImage_storage_mono extract cfg lookup st b
          force_new
        cases res with
        | error e =>
          simp only [applyOp, updateProductImage, hfind, hA] at hout
          exact absurd hin hout
        | ok rnew =>
          simp only [applyOp, updateProductImage, hfind, hA] at hout hp
          simp only [hA] at hmono
          have hin1 : r ∈ st1.storage := hmono hin
          cases hq : q.image_url with
          | none =>
            simp only [hq] at hout
            exact absurd hin1 hout
          | some r0 =>
            simp only [hq] at hout hp
            by_cases heq : (r0 == rnew) = true
            · rw [if_pos heq] at hout
              exact absurd hin1 hout
            · rw [if_neg heq] at hout hp
              simp only [cleanupRef] at hout
              by_cases href : referencedBy
                  (st1.products.map
                    (fun q2 => if q2.pid == pid then ⟨q2.pid, some rnew⟩
                      else q2)) r0 = true
              · rw [if_pos href] at hout
                exact absurd hin1 hout
              · rw [if_neg href] at hout
                have hr0 : r = r0 := by
                  by_contra hne
                  exact hout ((List.mem_erase_of_ne hne).2 hin1)
                rw [hr0]
                exact referencedBy_eq_false _ r0
                  (Bool.eq_false_iff.2 href) p hp
    | delete pid =>
      cases hfind : st.products.find? (fun q => q.pid == pid) with
      | none =>
        simp only [applyOp, deleteProduct, hfind] at hout
        exact absurd hin hout
      | some q =>
        cases hq : q.image_url with
        | none =>
          simp only [applyOp, deleteProduct, hfind, hq] at hout
          exact absurd hin hout
        | some r0 =>
          simp only [applyOp, deleteProduct, hfind, hq, cleanupRef]
            at hout hp
          by_cases href : referencedBy
              (st.products.filter (fun q2 => q2.pid != pid)) r0 = true
          · rw [if_pos href] at hout
            exact absurd hin hout
          · rw [if_neg href] at hout
            have hr0 : r = r0 := by
              by_contra hne
              exact hout ((List.mem_erase_of_ne hne).2 hin)
            rw [hr0]
            exact referencedBy_eq_false _ r0 (Bool.eq_false_iff.2 href) p hp
  · intro p1 p2 r h12
    have hne2 : p2 ≠ p1 := Ne.symm h12
    have hbne : (p2 != p1) = true := bne_iff_ne.mpr hne2
    constructor
    · simp [deleteProduct, List.find?, List.filter, cleanupRef,
        referencedBy, hbne]
    · simp [deleteProduct, List.find?, List.filter, cleanupRef,
        referencedBy, hbne, List.erase]

/-- Witness for C3 at concrete inputs: removing product 1 of the two
sharing "a.png" keeps the asset, removing product 2 afterwards deletes it;
and the generic conjunct instantiated at a concrete delete that empties
the storage. -/
theorem asset_deleted_only_when_unreferenced_witness :
    (∀ p ∈ (applyOp failingExtract defaultConfig corruptLookup
        ⟨[⟨1, some "a.png"⟩], ["a.png"]⟩ (Op.delete 1)).products,
      p.image_url ≠ some "a.png") ∧
    (deleteProduct ⟨[⟨1, some "a.png"⟩, ⟨2, some "a.png"⟩], ["a.png"]⟩
        1).storage = ["a.png"] ∧
    (deleteProduct
        (deleteProduct ⟨[⟨1, some "a.png"⟩, ⟨2, some "a.png"⟩], ["a.png"]⟩
          1) 2).storage = [] :=
  ⟨asset_deleted_only_when_unreferenced.1 failingExtract defaultConfig
      corruptLookup ⟨[⟨1, some "a.png"⟩], ["a.png"]⟩ (Op.delete 1) "a.png"
      (by decide) (by decide),
    asset_deleted_only_when_unreferenced.2 1 2 "a.png" (by decide)⟩

/-! ## Claim theorems: frontend helpers -/

/-- An accepted file replaces the Product Detail selection, rebuilds the
preview and resets the toggle. -/
lemma pdProcessImageFile_valid (st : DetailFormState) (f : JSFile)
    (hv : validImageFile f = true) :
    pdProcessImageFile st (some f) = ⟨some f, some f, true⟩ := by
  rw [validImageFile, Bool.and_eq_true] at hv
  obtain ⟨ht, hs⟩ := hv
  have hs2 : ¬ (5 * 1024 * 1024 < f.size) := not_lt.mpr (of_decide_eq_true hs)
  simp only [pdProcessImageFile]
  rw [ht]
  simp only [Bool.not_true]
  rw [if_neg Bool.false_ne_true, if_neg hs2]

/-- A rejected file leaves the Product Detail state untouched. -/
lemma pdProcessImageFile_invalid (st : DetailFormState) (f : JSFile)
    (hv : validImageFile f = false) :
    pdProcessImageFile st (some f) = st := by
  by_cases ht : validTypes.contains f.type = true
  · have hs : 5 * 1024 * 1024 < f.size := by
      rw [validImageFile, ht, Bool.true_and] at hv
      exact not_le.mp (of_decide_eq_false hv)
    simp only [pdProcessImageFile]
    rw [ht]
    simp only [Bool.not_true]
    rw [if_neg Bool.false_ne_true, if_pos hs]
  · have ht2 : validTypes.contains f.type = false := Bool.eq_false_iff.mpr ht
    simp only [pdProcessImageFile]
    rw [ht2]
    simp only [Bool.not_false, if_true]

/-- An accepted file replaces the Import form selection and resets the
toggle. -/
lemma importProcessImageFile_valid (ist : ImportFormState) (f : JSFile)
    (hv : validImageFile f = true) :
    importProcessImageFile ist (some f) = ⟨some f, true⟩ := by
  rw [validImageFile, Bool.and_eq_true] at hv
  obtain ⟨ht, hs⟩ := hv
  have hs2 : ¬ (5 * 1024 * 1024 < f.size) := not_lt.mpr (of_decide_eq_true hs)
  simp only [importProcessImageFile]
  rw [ht]
  simp only [Bool.not_true]
  rw [if_neg Bool.false_ne_true, if_neg hs2]

/-- A rejected file leaves the Import form state untouched. -/
lemma importProcessImageFile_invalid (ist : ImportFormState) (f : JSFile)
    (hv : validImageFile f = false) :
    importProcessImageFile ist (some f) = ist := by
  by_cases ht : validTypes.contains f.type = true
  · have hs : 5 * 1024 * 1024 < f.size := by
      rw [validImageFile, ht, Bool.true_and] at hv
      exact not_le.mp (of_decide_eq_false hv)
    simp only [importProcessImageFile]
    rw [ht]
    simp only [Bool.not_true]
    rw [if_neg Bool.false_ne_true, if_pos hs]
  · have ht2 : validTypes.contains f.type = false := Bool.eq_false_iff.mpr ht
    simp only [importProcessImageFile]
    rw [ht2]
    simp only [Bool.not_false, if_true]

/-- C10: in both upload forms a file becomes the selected image exactly
when its MIME type is whitelisted (image/jpeg, image/jpg, image/png,
image/gif, image/webp) and its size is at most 5*1024*1024 bytes; when
either check fails, the previously selected file and preview state are
unchanged. -/
theorem processImageFile_validation (st : DetailFormState)
    (ist : ImportFormState) (f : JSFile) :
    ((validTypes.contains f.type && decide (f.size ≤ 5 * 1024 * 1024))
        = true →
      pdProcessImageFile st (some f) = ⟨some f, some f, true⟩ ∧
      importProcessImageFile ist (some f) = ⟨some f, true⟩) ∧
    ((validTypes.contains f.type && decide (f.size ≤ 5 * 1024 * 1024))
        = false →
      pdProcessImageFile st (some f) = st ∧
      importProcessImageFile ist (some f) = ist) :=
  ⟨fun hv => ⟨pdProcessImageFile_valid st f hv,
      importProcessImageFile_valid ist f hv⟩,
    fun hv => ⟨pdProcessImageFile_invalid st f hv,
      importProcessImageFile_invalid ist f hv⟩⟩

/-- Witness for C10: a small PNG is accepted into the Product Detail form;
a text/plain file leaves the Import form unchanged. -/
theorem processImageFile_validation_witness :
    pdProcessImageFile pdInitState (some ⟨"image/png", 1000⟩) =
      ⟨some ⟨"image/png", 1000⟩, some ⟨"image/png", 1000⟩, true⟩ ∧
    importProcessImageFile importInitState (some ⟨"text/plain", 1000⟩) =
      importInitState :=
  ⟨((processImageFile_validation pdInitState importInitState
      ⟨"image/png", 1000⟩).1 (by decide)).1,
    ((processImageFile_validation pdInitState importInitState
      ⟨"text/plain", 1000⟩).2 (by decide)).2⟩

/-- C8: in both upload forms the force_new_image toggle starts true, is
reset to true when the image is cleared and when a file is selected or
replaced, and a submission right after selecting a file therefore carries
force_new_image = true. -/
theorem force_new_image_policy :
    pdInitState.forceNewImage = true ∧
    importInitState.manualForceNewImage = true ∧
    (∀ st : DetailFormState,
      (pdProcessImageFile st none).forceNewImage = true) ∧
    (∀ ist : ImportFormState,
      (importProcessImageFile ist none).manualForceNewImage = true) ∧
    (∀ (st : DetailFormState) (f : JSFile), validImageFile f = true →
      (pdProcessImageFile st (some f)).forceNewImage = true ∧
      pdSubmitForceFlag (pdProcessImageFile st (some f)) = some true) ∧
    (∀ (ist : ImportFormState) (f : JSFile), validImageFile f = true →
      (importProcessImageFile ist (some f)).manualForceNewImage = true ∧
      importSubmitForceFlag (importProcessImageFile ist (some f)) =
        some true) := by
  refine ⟨rfl, rfl, fun st => rfl, fun ist => rfl, ?_, ?_⟩
  · intro st f hv
    rw [pdProcessImageFile_valid st f hv]
    exact ⟨rfl, rfl⟩
  · intro ist f hv
    rw [importProcessImageFile_valid ist f hv]
    exact ⟨rfl, rfl⟩

/-- Witness for C8: selecting a small PNG in either freshly opened form
leaves the toggle true and the submitted flag true. -/
theorem force_new_image_policy_witness :
    (pdProcessImageFile pdInitState
        (some ⟨"image/png", 1000⟩)).forceNewImage = true ∧
    pdSubmitForceFlag
        (pdProcessImageFile pdInitState (some ⟨"image/png", 1000⟩)) =
      some true ∧
    (importProcessImageFile importInitState
        (some ⟨"image/png", 1000⟩)).manualForceNewImage = true ∧
    importSubmitForceFlag
        (importProcessImageFile importInitState
          (some ⟨"image/png", 1000⟩)) = some true := by
  obtain ⟨-, -, -, -, h5, h6⟩ := force_new_image_policy
  obtain ⟨h5a, h5b⟩ := h5 pdInitState ⟨"image/png", 1000⟩ (by decide)
  obtain ⟨h6a, h6b⟩ := h6 importInitState ⟨"image/png", 1000⟩ (by decide)
  exact ⟨h5a, h5b, h6a, h6b⟩

/-- C9: resolveImageUrl maps a null or empty URL to the placeholder,
passes absolute http or https URLs through unchanged, and otherwise
prepends the API origin, which is the configured base URL with a trailing
"/api" stripped. -/
theorem resolveImageUrl_cases :
    (∀ base : String,
      resolveImageUrl base none = "/placeholder-image.png" ∧
      resolveImageUrl base (some "") = "/placeholder-image.png") ∧
    (∀ base u : String,
      (jsStartsWith u "http://" = true ∨ jsStartsWith u "https://" = true) →
      resolveImageUrl base (some u) = u) ∧
    (∀ base u : String, u ≠ "" →
      jsStartsWith u "http://" = false →
      jsStartsWith u "https://" = false →
      resolveImageUrl base (some u) =
        String.append
          (if jsEndsWith base "/api" then jsDropRight base 4 else base)
          u) := by
  refine ⟨fun base => ⟨rfl, rfl⟩, ?_, ?_⟩
  · intro base u h
    have hu : u ≠ "" := by
      intro he
      subst he
      rcases h with h | h
      · exact absurd h (by decide)
      · exact absurd h (by decide)
    have hcond : (jsStartsWith u "http://" ||
        jsStartsWith u "https://") = true := by
      rcases h with h | h <;> simp [h]
    simp only [resolveImageUrl, if_neg hu, hcond, if_true]
  · intro base u hu h1 h2
    simp only [resolveImageUrl, getApiOrigin, if_neg hu, h1, h2,
      Bool.or_self, Bool.false_eq_true, if_false]

/-- Witness for C9: an absolute URL passes through; a relative static path
gets the origin of the default localhost base prepended. -/
theorem resolveImageUrl_cases_witness :
    resolveImageUrl "http://localhost:8000/api"
        (some "https://cdn.example.com/img.png") =
      "https://cdn.example.com/img.png" ∧
    resolveImageUrl "http://localhost:8000/api"
        (some "/static/images/a.png") =
      String.append
        (if jsEndsWith "http://localhost:8000/api" "/api"
          then jsDropRight "http://localhost:8000/api" 4
          else "http://localhost:8000/api")
        "/static/images/a.png" :=
  ⟨resolveImageUrl_cases.2.1 "http://localhost:8000/api"
      "https://cdn.example.com/img.png" (Or.inr (by decide)),
    resolveImageUrl_cases.2.2 "http://localhost:8000/api"
      "/static/images/a.png" (by decide) (by decide) (by decide)⟩

end InvPO
